import Mathlib

/-!
# Verification of the gwpy `Axes` extension (`gwpy/plot/axes.py`)

This file is a shallow embedding, in Lean 4, of the argument-transformation
logic of the gwpy plotting `Axes` subclass and its `PlotArgsProcessor`
companion, together with proofs of the behavioural properties stated in the
repository's specification.

Modelling conventions:
* Python floats and numpy `longdouble` values are modelled as exact rationals
  (`ℚ`); string formatting of timestamps is modelled by explicit functions.
* Delegation to the matplotlib base class is modelled by returning the exact
  argument tuple that the base call receives (the base class is external).
* A raised-and-swallowed Python exception is modelled by `Option`/`Except`.
* Collaborators that live in gwpy but outside the sources under verification
  (`gwpy.time.to_gps`, `gwpy.time.LIGOTimeGPS`, the `GPS_SCALES` registry and
  `gwpy.plot.colorbar.process_colorbar_kwargs`) are modelled from the
  specification's description of them; each such definition is marked
  `Modelled from the spec:` in its doc comment.
-/

/-- Modelled from the spec: the registry of recognized GPS scale names
(`gwpy.plot.gps.GPS_SCALES`, not part of the sources under verification).
Membership in this list is what `get_xscale() in GPS_SCALES` tests. -/
def GPS_SCALES : List String :=
  ["auto-gps", "gps", "seconds", "minutes", "hours", "days", "weeks", "years"]

/-! ## Python values passed as axis limits (`xlim_as_gps`, lines 59-76) -/

/-- A Python value that can arrive as a bound of `Axes.set_xlim`: `None`, a
number, a calendar-date string, or a two-element sequence of bounds. -/
inductive PyVal where
  | pnone : PyVal
  | pnum (q : ℚ) : PyVal
  | pstr (s : String) : PyVal
  | ppair (a b : PyVal) : PyVal
deriving DecidableEq

/-- `matplotlib.cbook.iterable`: strings and sequences are iterable, `None`
and numbers are not. -/
def iterablePy : PyVal → Bool
  | .pstr _ => true
  | .ppair _ _ => true
  | _ => false

/-- Python tuple unpacking `left, right = left`: a pair unpacks to its two
components; a string unpacks to its characters (succeeding only when it has
exactly two); anything else raises. -/
def unpack2 : PyVal → Except Unit (PyVal × PyVal)
  | .ppair a b => .ok (a, b)
  | .pstr s =>
      match s.toList with
      | [a, b] => .ok (.pstr (String.mk [a]), .pstr (String.mk [b]))
      | _ => .error ()
  | _ => .error ()

/-- Modelled from the spec: the calendar-date parsing table behind
`gwpy.time.to_gps` (not part of the sources under verification), mapping a
calendar-date string to its GPS time. -/
def gpsDateTable : List (String × ℚ) :=
  [("2015-09-14 09:50:45", 1126259462),
   ("2015-09-14", 1126224017),
   ("2010-01-01", 946339215)]

/-- Modelled from the spec: `gwpy.time.to_gps` (not part of the sources under
verification) parses calendar strings and numbers into a high-precision GPS
timestamp; `none` models the exception raised for a non-convertible value
(such as `None` or an unrecognized string), which the caller swallows. -/
def to_gps : PyVal → Option ℚ
  | .pnum q => some q
  | .pstr s => gpsDateTable.lookup s
  | _ => none

/-- One bound of `set_xlim` after the GPS normalization loop of
`xlim_as_gps`: on a GPS scale a convertible value is replaced by
`numpy.longdouble(str(to_gps(value)))` (modelled as the exact rational GPS
value); a failing conversion is swallowed and the value kept unchanged. -/
def gpsConvBound (gpsscale : Bool) (v : PyVal) : PyVal :=
  if gpsscale then
    match to_gps v with
    | some g => .pnum g
    | none => v
  else v

namespace Axes

/-- `Axes.set_xlim = xlim_as_gps(_Axes.set_xlim)` (lines 59-76 and 126): a
two-element `left` with `right = None` is unpacked into separate bounds; on a
GPS-scaled x-axis each bound is normalized through `to_gps`; the resulting
pair is what the base `set_xlim` stores. -/
def set_xlim (xscale : String) (left right : PyVal) :
    Except Unit (PyVal × PyVal) :=
  match (if right = .pnone ∧ iterablePy left then unpack2 left
         else .ok (left, right)) with
  | .error e => .error e
  | .ok (l, r) =>
      let gpsscale := xscale ∈ GPS_SCALES
      .ok (gpsConvBound gpsscale l, gpsConvBound gpsscale r)

end Axes

/-! ## `PlotArgsProcessor._grab_next_args` (lines 362-375) -/

/-- A gwpy `Series`: one-dimensional labelled data with an index array
(`xindex`) and a value array; `ndim` records the array dimensionality. -/
structure SeriesT where
  xindex : List ℚ
  values : List ℚ
  ndim : ℕ
deriving DecidableEq

/-- A positional argument of `ax.plot(...)`: a `Series`, a plain array, or a
non-array argument such as a matplotlib format string. -/
inductive PlotArg where
  | ser (s : SeriesT) : PlotArg
  | arr (l : List ℚ) : PlotArg
  | strArg (s : String) : PlotArg
deriving DecidableEq

/-- The rewrite applied to one positional argument by `_grab_next_args`: a
one-dimensional `Series` becomes the two arguments `(arg.xindex, arg)`;
everything else is kept as a single argument. -/
def unwrapArg : PlotArg → List PlotArg
  | .ser s => if s.ndim = 1 then [.arr s.xindex, .ser s] else [.ser s]
  | a => [a]

/-- `PlotArgsProcessor._grab_next_args`: the full rewritten positional
argument tuple handed to the base parser. -/
def grab_next_args : List PlotArg → List PlotArg
  | [] => []
  | a :: rest => unwrapArg a ++ grab_next_args rest

/-- How the base argument parser reads an argument as numeric data: a
`Series` is array-like over its values, a plain array is itself, a format
string carries no data. -/
def argData : PlotArg → Option (List ℚ)
  | .ser s => some s.values
  | .arr l => some l
  | .strArg _ => none

/-! ## `Axes.scatter` (lines 172-190) -/

/-- The `c` argument of `scatter`: a numeric colour array or a literal
colour-specification string. -/
inductive CSpec where
  | carr (l : List ℚ) : CSpec
  | cstr (s : String) : CSpec
deriving DecidableEq

/-- `mpl_version < '2.0'`: the model fixes matplotlib at version >= 2.0. -/
def mplVersionLt2 : Bool := false

/-- `DEFAULT_SCATTER_COLOR = 'b' if mpl_version < '2.0' else None`. -/
def DEFAULT_SCATTER_COLOR : Option CSpec :=
  if mplVersionLt2 then some (.cstr "b") else none

/-- `numpy.asanyarray(c, dtype=float)` guarded by `if c is None: raise`:
`none` both for `c is None` and for a colour-spec string (which fails the
float conversion with `ValueError`); both cases land in the `except` branch
that leaves `c` untouched. -/
def asFloatArray : Option CSpec → Option (List ℚ)
  | some (.carr l) => some l
  | _ => none

/-- `c_array.argsort()`: the indices of `c` ordered by ascending value
(ties in a deterministic order; only sortedness and being a permutation
matter to the callers). -/
def argsortIdx (c : List ℚ) : List ℕ :=
  List.insertionSort (fun i j => c.getD i 0 ≤ c.getD j 0) (List.range c.length)

/-- The argument tuple `(x, y, c=c, **kwargs)` received by the base
`matplotlib` `scatter` after gwpy's preprocessing. Keyword arguments are
modelled as an association list of boolean-valued keys (only `c_sort` is
ever inspected). -/
structure ScatterOut where
  x : List ℚ
  y : List ℚ
  c : Option CSpec
  kw : List (String × Bool)
deriving DecidableEq

/-- `kwargs.pop('c_sort', True)`. -/
def popCSort (kw : List (String × Bool)) : Bool × List (String × Bool) :=
  ((kw.lookup "c_sort").getD true, kw.filter (fun p => p.1 ≠ "c_sort"))

namespace Axes

/-- `Axes.scatter` (lines 172-190): with a numeric colour array and `c_sort`
enabled, `x`, `y` and `c` are jointly reindexed by `c.argsort()` before
delegation; otherwise all arguments (including the `c_sort` keyword, when
the colour is not numeric) pass through unchanged. -/
def scatter (x y : List ℚ) (c : Option CSpec) (kw : List (String × Bool)) :
    ScatterOut :=
  let c := if c.isNone && mplVersionLt2 then DEFAULT_SCATTER_COLOR else c
  match asFloatArray c with
  | none => ⟨x, y, c, kw⟩
  | some carr =>
      let (c_sort, kw2) := popCSort kw
      if c_sort then
        let idx := argsortIdx carr
        ⟨idx.map (fun i => x.getD i 0),
         idx.map (fun i => y.getD i 0),
         some (.carr (idx.map (fun i => carr.getD i 0))),
         kw2⟩
      else ⟨x, y, c, kw2⟩

end Axes

/-! ## `Axes.plot_mmm` (lines 241-308) -/

/-- A drawn artifact of `plot_mmm`: a `Line2D` from `self.plot` (carrying the
style keywords the call supplied) or the `PolyCollection` from
`self.fill_between`. -/
inductive Artifact where
  | line (s : SeriesT) (linewidth : ℚ) (color : ℕ) (alpha : Option ℚ)
      (label : Option String) : Artifact
  | fillB (x : List ℚ) (y1 y2 : SeriesT) (alpha : ℚ) (color : ℕ) : Artifact
deriving DecidableEq

namespace Axes

/-- `Axes.plot_mmm` (lines 241-308). `lw0` and `color0` are the line width
and colour that the base `plot` call assigns to the primary line (from the
caller's keywords or the style cycle); `alphaKw` and `labelKw` model the
`alpha` and `label` entries of `**kwargs`. The primary line is drawn with
`alpha` already popped; the lower/upper lines use half the primary width,
the primary colour, doubled alpha and an empty label; the final
`fill_between` spans from `lower` (or the data itself) to `upper` (or the
data itself). -/
def plot_mmm (data : SeriesT) (lower upper : Option SeriesT)
    (alphaKw : Option ℚ) (lw0 : ℚ) (color0 : ℕ) (labelKw : Option String) :
    List Artifact :=
  let alpha := alphaKw.getD (1 / 10)
  let line : Artifact := .line data lw0 color0 none labelKw
  let out : List Artifact := [line]
  let shade : SeriesT → Artifact := fun s =>
    .line s (lw0 / 2) color0 (some (alpha * 2)) (some "")
  let out := out ++ (match lower with | some l => [shade l] | none => [])
  let fill1 := lower.getD data
  let out := out ++ (match upper with | some u => [shade u] | none => [])
  let fill2 := upper.getD data
  out ++ [.fillB data.xindex fill1 fill2 alpha color0]

end Axes

/-! ## `Axes._imshow_array2d` (lines 210-223) -/

/-- A gwpy `Array2D`: a two-dimensional grid with horizontal and vertical
spans (`xspan`, `yspan`), each a pair of boundary values. -/
structure Array2DT where
  xspan : ℚ × ℚ
  yspan : ℚ × ℚ
  value : List (List ℚ)
deriving DecidableEq

/-- The four-value `extent` tuple `(x0, x1, y0, y1)` passed to `imshow`. -/
structure ExtentT where
  x0 : ℚ
  x1 : ℚ
  y0 : ℚ
  y1 : ℚ
deriving DecidableEq

/-- The literal `1e-300` substituted for a zero boundary on a log axis
(modelled as the exact rational it denotes). -/
def eps300 : ℚ := 1 / 10 ^ 300

namespace Axes

/-- The `extent` keyword that `Axes._imshow_array2d` (lines 210-223) hands to
`imshow`: the horizontal span concatenated with the vertical span, with a
zero lower boundary replaced by `1e-300` when the matching axis is
log-scaled, used only as a default when the caller supplied no `extent`. -/
def imshow_array2d_extent (xscale yscale : String) (a : Array2DT)
    (kwExtent : Option ExtentT) : ExtentT :=
  let extent : ExtentT := ⟨a.xspan.1, a.xspan.2, a.yspan.1, a.yspan.2⟩
  let extent := if xscale = "log" ∧ extent.x0 = 0 then
    { extent with x0 := eps300 } else extent
  let extent := if yscale = "log" ∧ extent.y0 = 0 then
    { extent with y0 := eps300 } else extent
  kwExtent.getD extent

end Axes

/-! ## `Axes._fmt_xdata` / `Axes._fmt_ydata` (lines 116-124) -/

/-- Modelled from the spec: `str(LIGOTimeGPS(x))` (`gwpy.time`, not part of
the sources under verification), the high-precision textual timestamp for a
coordinate value. -/
def ligoTimeGpsStr (x : ℚ) : String := toString x

namespace Axes

/-- `Axes._fmt_xdata`: a high-precision timestamp string on a GPS-scaled
x-axis; otherwise the raised `TypeError` (modelled as `.error ()`), the
non-fatal signal telling matplotlib to fall back to its default formatter. -/
def fmt_xdata (xscale : String) (x : ℚ) : Except Unit String :=
  if xscale ∈ GPS_SCALES then .ok (ligoTimeGpsStr x) else .error ()

/-- `Axes._fmt_ydata`: the same for the y-axis. -/
def fmt_ydata (yscale : String) (y : ℚ) : Except Unit String :=
  if yscale ∈ GPS_SCALES then .ok (ligoTimeGpsStr y) else .error ()

end Axes

/-! ## `Axes.draw` (lines 93-112) -/

/-- The state of one matplotlib axis that `Axes.draw` reads and mutates:
its scale name, its label text, the `isDefault_label` marker, and the GPS
transform's epoch and unit name. -/
structure AxisState where
  scale : String
  isDefault_label : Bool
  labelText : String
  epoch : ℚ
  unitName : String
deriving DecidableEq

/-- The pair of axes of one `Axes` object. -/
structure AxesState where
  xaxis : AxisState
  yaxis : AxisState
deriving DecidableEq

/-- Python `s.rstrip(c)`: remove every trailing occurrence of `c`. -/
def rstripChar (c : Char) (s : String) : String :=
  String.mk ((s.toList.reverse.dropWhile (· == c)).reverse)

/-- The label text `'Time [{unit}] from {utc} UTC ({epoch!r})'` built at
lines 103-106; `iso` models the astropy GPS-to-UTC ISO conversion and
`fRepr` the Python `repr` of the float epoch (both external). -/
def gpsAxisLabel (iso fRepr : ℚ → String) (ax : AxisState) : String :=
  let utc := rstripChar '.' (rstripChar '0' (iso ax.epoch))
  "Time [" ++ ax.unitName ++ "] from " ++ utc ++ " UTC (" ++
    fRepr ax.epoch ++ ")"

/-- The pre-draw loop body (lines 97-106) for one axis: on a GPS scale with a
default label, the axis is recorded in `labels` (second component `true`) and
its label text replaced via `set_label_text`, which (matplotlib behaviour)
also clears `isDefault_label`. -/
def drawRelabel (iso fRepr : ℚ → String) (ax : AxisState) :
    AxisState × Bool :=
  if ax.scale ∈ GPS_SCALES ∧ ax.isDefault_label then
    ({ ax with labelText := gpsAxisLabel iso fRepr ax,
               isDefault_label := false }, true)
  else (ax, false)

/-- The `finally` block (lines 110-112) for one axis: every axis recorded in
`labels` gets `isDefault_label = True` again; nothing else is written back. -/
def drawRestore (recorded : Bool) (ax : AxisState) : AxisState :=
  if recorded then { ax with isDefault_label := true } else ax

namespace Axes

/-- `Axes.draw` (lines 93-112). `baseRaises` says whether the delegated base
`draw` raises; the returned `Bool` is `true` on normal completion and `false`
when the exception propagates, and the returned state is the axes state after
the `finally` block in either case. -/
def draw (iso fRepr : ℚ → String) (st : AxesState) (baseRaises : Bool) :
    Bool × AxesState :=
  let (x1, rx) := drawRelabel iso fRepr st.xaxis
  let (y1, ry) := drawRelabel iso fRepr st.yaxis
  (!baseRaises, ⟨drawRestore rx x1, drawRestore ry y1⟩)

end Axes

/-! ## `Axes.colorbar` (lines 310-351) -/

/-- The keyword arguments of `Axes.colorbar` that its own logic inspects:
`use_axesgrid` and `fraction`, each possibly absent. -/
structure CbKwargs where
  use_axesgrid : Option Bool
  fraction : Option ℚ
deriving DecidableEq

/-- The two `setdefault` steps at lines 339-342: a grid-managed call
(`use_axesgrid` absent or `True`) defaults `fraction` to `0.`, and a zero (or
absent) `fraction` defaults `use_axesgrid` to `True`. -/
def colorbarDefaults (kw : CbKwargs) : CbKwargs :=
  let kw := if kw.use_axesgrid.getD true then
    { kw with fraction := some (kw.fraction.getD 0) } else kw
  if kw.fraction.getD 0 = 0 then
    { kw with use_axesgrid := some (kw.use_axesgrid.getD true) } else kw

namespace Axes

/-- `Axes.colorbar` (lines 310-351), restricted to its keyword-processing
effect: the two mutual defaults, then `process_colorbar_kwargs`
(`gwpy.plot.colorbar`, outside the sources under verification, modelled as an
arbitrary rewrite `pck` of these keywords), and finally the unconditional
`kwargs['use_axesgrid'] = False` whenever the figure is a gwpy `Plot`. The
result is the keyword set handed to `fig.colorbar`. -/
def colorbar (figIsPlot : Bool) (pck : CbKwargs → CbKwargs) (kw : CbKwargs) :
    CbKwargs :=
  let kw := colorbarDefaults kw
  let kw := pck kw
  if figIsPlot then { kw with use_axesgrid := some false } else kw

end Axes

/-! ## Claims -/

/-- C6: `plot_mmm(data, lower=L, upper=U)` returns exactly 4 artifacts in the
order primary line, lower line, upper line, fill region; with only `lower`
given it returns exactly 3 artifacts in the order primary line, lower line,
fill region. -/
theorem C6_plot_mmm_artifacts (data L U : SeriesT) (alphaKw : Option ℚ)
    (lw0 : ℚ) (color0 : ℕ) (labelKw : Option String) :
    Axes.plot_mmm data (some L) (some U) alphaKw lw0 color0 labelKw =
      [.line data lw0 color0 none labelKw,
       .line L (lw0 / 2) color0 (some (alphaKw.getD (1 / 10) * 2)) (some ""),
       .line U (lw0 / 2) color0 (some (alphaKw.getD (1 / 10) * 2)) (some ""),
       .fillB data.xindex L U (alphaKw.getD (1 / 10)) color0] ∧
    Axes.plot_mmm data (some L) none alphaKw lw0 color0 labelKw =
      [.line data lw0 color0 none labelKw,
       .line L (lw0 / 2) color0 (some (alphaKw.getD (1 / 10) * 2)) (some ""),
       .fillB data.xindex L data (alphaKw.getD (1 / 10)) color0] :=
  ⟨rfl, rfl⟩

/-- C7: the effective `imshow` extent of a 2D array is the horizontal span
concatenated with the vertical span, except that a span starting at exactly 0
on a log-scaled axis gets `1e-300` instead, and a caller-supplied extent
always wins over the computed default. -/
theorem C7_imshow_extent (xs ys : String) (a : Array2DT) :
    (Axes.imshow_array2d_extent xs ys a none =
      ⟨(if xs = "log" ∧ a.xspan.1 = 0 then eps300 else a.xspan.1),
       a.xspan.2,
       (if ys = "log" ∧ a.yspan.1 = 0 then eps300 else a.yspan.1),
       a.yspan.2⟩) ∧
    (∀ e, Axes.imshow_array2d_extent xs ys a (some e) = e) := by
  refine ⟨?_, fun e => rfl⟩
  by_cases h1 : xs = "log" ∧ a.xspan.1 = 0 <;>
    by_cases h2 : ys = "log" ∧ a.yspan.1 = 0 <;>
      simp [Axes.imshow_array2d_extent, h1, h2]

/-- C8: the x (resp. y) coordinate formatter returns the high-precision
timestamp string on a GPS-scaled axis and otherwise signals "not applicable"
(the raised `TypeError`, modelled as `.error ()`) instead of returning a
value. -/
theorem C8_fmt_data (scale : String) (v : ℚ) :
    (scale ∈ GPS_SCALES →
      Axes.fmt_xdata scale v = .ok (ligoTimeGpsStr v) ∧
      Axes.fmt_ydata scale v = .ok (ligoTimeGpsStr v)) ∧
    (scale ∉ GPS_SCALES →
      Axes.fmt_xdata scale v = .error () ∧
      Axes.fmt_ydata scale v = .error ()) := by
  constructor <;> intro h <;>
    simp [Axes.fmt_xdata, Axes.fmt_ydata, h]

/-- Witness for C8 at the GPS scale "gps" and the non-GPS scale "linear". -/
theorem C8_fmt_data_witness :
    Axes.fmt_xdata "gps" 5 = .ok (ligoTimeGpsStr 5) ∧
    Axes.fmt_xdata "linear" 5 = .error () :=
  ⟨((C8_fmt_data "gps" 5).1 (by decide)).1,
   ((C8_fmt_data "linear" 5).2 (by decide)).1⟩

/-- C10: when the colour argument is a literal colour-spec string (so the
float conversion fails), the `c_sort` keyword is not consumed and the whole
keyword set is forwarded unchanged to the base `scatter`. -/
theorem C10_scatter_cstr_kwargs (x y : List ℚ) (s : String) (b : Bool)
    (kw : List (String × Bool)) :
    Axes.scatter x y (some (.cstr s)) (("c_sort", b) :: kw) =
      ⟨x, y, some (.cstr s), ("c_sort", b) :: kw⟩ :=
  rfl

/-- C2: `_grab_next_args` expands every one-dimensional `Series` positional
argument into exactly two arguments (its index sequence, then the `Series`
itself read as its value sequence), passes every other argument through
unchanged preserving relative order, and consequently plotting a `Series`
is equivalent (at the level of the data the base parser reads) to plotting
its index and value sequences explicitly. -/
theorem C2_grab_next_args (s : SeriesT) (h : s.ndim = 1) :
    (∀ a rest, grab_next_args (a :: rest) = unwrapArg a ++ grab_next_args rest) ∧
    unwrapArg (.ser s) = [.arr s.xindex, .ser s] ∧
    (grab_next_args [.ser s]).map argData = [some s.xindex, some s.values] ∧
    (∀ a : PlotArg, (∀ t : SeriesT, a = .ser t → t.ndim ≠ 1) →
      unwrapArg a = [a]) ∧
    (grab_next_args [.ser s]).map argData =
      (grab_next_args [.arr s.xindex, .arr s.values]).map argData := by
  refine ⟨fun a rest => rfl,
    by simp [unwrapArg, h],
    by simp [grab_next_args, unwrapArg, argData, h],
    ?_,
    by simp [grab_next_args, unwrapArg, argData, h]⟩
  intro a ha
  cases a with
  | ser t => simp [unwrapArg, ha t rfl]
  | arr l => rfl
  | strArg s2 => rfl

/-- Witness for C2 on the concrete series with index `[0, 1]` and values
`[2, 3]`. -/
theorem C2_grab_next_args_witness :
    (grab_next_args [.ser ⟨[0, 1], [2, 3], 1⟩]).map argData =
      [some [(0 : ℚ), 1], some [(2 : ℚ), 3]] :=
  (C2_grab_next_args ⟨[0, 1], [2, 3], 1⟩ rfl).2.2.1

/-- C3: on a GPS-scaled x-axis, `set_xlim` with a calendar-date string bound
and with its equivalent numeric GPS value store identical limits, and a
single two-element pair is accepted in place of separate left/right bounds. -/
theorem C3_set_xlim_gps_equiv (xs ds : String) (g : ℚ) (r : PyVal)
    (h1 : xs ∈ GPS_SCALES) (h2 : to_gps (.pstr ds) = some g)
    (h3 : r ≠ .pnone) :
    Axes.set_xlim xs (.pstr ds) r = Axes.set_xlim xs (.pnum g) r ∧
    Axes.set_xlim xs (.ppair (.pstr ds) r) .pnone =
      Axes.set_xlim xs (.pstr ds) r := by
  have hcond : ¬(r = PyVal.pnone ∧ (iterablePy (PyVal.pstr ds) : Prop)) :=
    fun hc => h3 hc.1
  have hcond2 : ¬(r = PyVal.pnone ∧ (iterablePy (PyVal.pnum g) : Prop)) :=
    fun hc => h3 hc.1
  have h2a : gpsDateTable.lookup ds = some g := h2
  constructor
  · simp [Axes.set_xlim, hcond, hcond2, gpsConvBound, h1, h2a, to_gps]
  · simp [Axes.set_xlim, hcond, h3, unpack2, iterablePy]

/-- Witness for C3: the date "2015-09-14" against its GPS time on the scale
"gps". -/
theorem C3_set_xlim_gps_equiv_witness :
    Axes.set_xlim "gps" (.pstr "2015-09-14") (.pnum 0) =
      Axes.set_xlim "gps" (.pnum 1126224017) (.pnum 0) ∧
    Axes.set_xlim "gps" (.ppair (.pstr "2015-09-14") (.pnum 0)) .pnone =
      Axes.set_xlim "gps" (.pstr "2015-09-14") (.pnum 0) :=
  C3_set_xlim_gps_equiv "gps" "2015-09-14" 1126224017 (.pnum 0)
    (by decide) (by decide) (by decide)

/-- C4: on a GPS-scaled x-axis, a bound whose GPS conversion fails is passed
through unchanged to the base limit setter, and no error reaches the
caller. -/
theorem C4_set_xlim_swallow (xs : String) (l b : PyVal)
    (_h1 : xs ∈ GPS_SCALES) (h2 : to_gps b = none)
    (h3 : b = .pnone → iterablePy l = false) :
    ∃ lv, Axes.set_xlim xs l b = .ok (lv, b) := by
  refine ⟨gpsConvBound (xs ∈ GPS_SCALES) l, ?_⟩
  by_cases hb : b = PyVal.pnone
  · have hl := h3 hb
    subst hb
    simp [Axes.set_xlim, hl, gpsConvBound, h2, to_gps]
  · have hcond : ¬(b = PyVal.pnone ∧ (iterablePy l : Prop)) := fun hc => hb hc.1
    simp [Axes.set_xlim, hcond, gpsConvBound, h2, hb]

/-- Witness for C4: an unparseable date string bound on the scale
"auto-gps". -/
theorem C4_set_xlim_swallow_witness :
    ∃ lv, Axes.set_xlim "auto-gps" (.pnum 3) (.pstr "not-a-date") =
      .ok (lv, .pstr "not-a-date") :=
  C4_set_xlim_swallow "auto-gps" (.pnum 3) (.pstr "not-a-date")
    (by decide) (by decide) (by decide)

/-- C5: `scatter` with a numeric colour array and `c_sort` enabled (the
default) jointly reorders x, y and colour along `argsort(c)`, so the drawn
colour values are ascending and the triples stay co-indexed; with
`c_sort=False` the original order is preserved; a colour-spec string or an
absent colour bypasses sorting entirely. -/
theorem C5_scatter_sort (x y carr : List ℚ) (kw : List (String × Bool)) :
    ((kw.lookup "c_sort").getD true = true →
      (argsortIdx carr).Perm (List.range carr.length) ∧
      List.Sorted (· ≤ ·) ((argsortIdx carr).map (fun i => carr.getD i 0)) ∧
      Axes.scatter x y (some (.carr carr)) kw =
        ⟨(argsortIdx carr).map (fun i => x.getD i 0),
         (argsortIdx carr).map (fun i => y.getD i 0),
         some (.carr ((argsortIdx carr).map (fun i => carr.getD i 0))),
         kw.filter (fun p => p.1 ≠ "c_sort")⟩) ∧
    ((kw.lookup "c_sort").getD true = false →
      Axes.scatter x y (some (.carr carr)) kw =
        ⟨x, y, some (.carr carr), kw.filter (fun p => p.1 ≠ "c_sort")⟩) ∧
    (∀ s, Axes.scatter x y (some (.cstr s)) kw = ⟨x, y, some (.cstr s), kw⟩) ∧
    Axes.scatter x y none kw = ⟨x, y, none, kw⟩ := by
  refine ⟨?_, ?_, fun s => rfl, rfl⟩
  · intro h
    refine ⟨List.perm_insertionSort _ _, ?_, ?_⟩
    · letI : IsTotal ℕ (fun i j => carr.getD i 0 ≤ carr.getD j 0) :=
        ⟨fun a b => le_total _ _⟩
      letI : IsTrans ℕ (fun i j => carr.getD i 0 ≤ carr.getD j 0) :=
        ⟨fun a b c hab hbc => le_trans hab hbc⟩
      have hs := List.sorted_insertionSort
        (fun i j => carr.getD i 0 ≤ carr.getD j 0) (List.range carr.length)
      exact List.pairwise_map.mpr hs
    · simp [Axes.scatter, asFloatArray, popCSort, argsortIdx, h]
  · intro h
    simp [Axes.scatter, asFloatArray, popCSort, h]

/-- Witness for C5 on `x = [10, 20, 30]`, `y = [1, 2, 3]`,
`c = [3, 1, 2]`. -/
theorem C5_scatter_sort_witness :
    (argsortIdx [3, 1, 2]).Perm (List.range 3) ∧
    List.Sorted (· ≤ ·)
      ((argsortIdx [3, 1, 2]).map (fun i => [(3 : ℚ), 1, 2].getD i 0)) ∧
    Axes.scatter [10, 20, 30] [1, 2, 3] (some (.carr [3, 1, 2])) [] =
      ⟨(argsortIdx [3, 1, 2]).map (fun i => [(10 : ℚ), 20, 30].getD i 0),
       (argsortIdx [3, 1, 2]).map (fun i => [(1 : ℚ), 2, 3].getD i 0),
       some (.carr ((argsortIdx [3, 1, 2]).map (fun i => [(3 : ℚ), 1, 2].getD i 0))),
       []⟩ :=
  (C5_scatter_sort [10, 20, 30] [1, 2, 3] [3, 1, 2] []).1 rfl

/-- Counterexample to C1 as stated: a concrete GPS-scaled x-axis with the
default (empty) label. After a successful `draw` the label text is the
formatted GPS label, not the pre-draw text: `draw` never restores the saved
text, its `finally` block only resets the `isDefault_label` marker. -/
theorem C1_draw_counterexample :
    ¬ ((Axes.draw (fun _ => "1980-01-06 00:00:00.000") (fun _ => "0.0")
          ⟨⟨"gps", true, "", 0, "seconds"⟩, ⟨"linear", true, "", 0, ""⟩⟩
          false).2.xaxis.labelText =
        (⟨⟨"gps", true, "", 0, "seconds"⟩,
          ⟨"linear", true, "", 0, ""⟩⟩ : AxesState).xaxis.labelText) := by
  decide

/-- C1 (amended): for every axis with a GPS scale and a default label,
`Axes.draw` restores the default-label marker (`isDefault_label = True`) on
every exit path, including when the delegated base draw raises; the label
text itself is left holding the formatted GPS label, and axes that do not
qualify are left untouched. -/
theorem C1_draw_restores_marker (iso fRepr : ℚ → String) (st : AxesState)
    (baseRaises : Bool) :
    (st.xaxis.scale ∈ GPS_SCALES → st.xaxis.isDefault_label = true →
      (Axes.draw iso fRepr st baseRaises).2.xaxis.isDefault_label =
          st.xaxis.isDefault_label ∧
        (Axes.draw iso fRepr st baseRaises).2.xaxis.labelText =
          gpsAxisLabel iso fRepr st.xaxis) ∧
    (st.yaxis.scale ∈ GPS_SCALES → st.yaxis.isDefault_label = true →
      (Axes.draw iso fRepr st baseRaises).2.yaxis.isDefault_label =
          st.yaxis.isDefault_label ∧
        (Axes.draw iso fRepr st baseRaises).2.yaxis.labelText =
          gpsAxisLabel iso fRepr st.yaxis) ∧
    (¬(st.xaxis.scale ∈ GPS_SCALES ∧ st.xaxis.isDefault_label = true) →
      (Axes.draw iso fRepr st baseRaises).2.xaxis = st.xaxis) ∧
    (Axes.draw iso fRepr st baseRaises).1 = !baseRaises := by
  refine ⟨fun hs hd => ?_, fun hs hd => ?_, fun hn => ?_, rfl⟩
  · simp [Axes.draw, drawRelabel, drawRestore, hs, hd]
  · simp [Axes.draw, drawRelabel, drawRestore, hs, hd]
  · simp [Axes.draw, drawRelabel, drawRestore, hn]

/-- Witness for the amended C1 on a concrete GPS-scaled axes state, on the
raising exit path. -/
theorem C1_draw_restores_marker_witness :
    (Axes.draw (fun _ => "1980-01-06 00:00:00.000") (fun _ => "0.0")
        ⟨⟨"gps", true, "", 0, "seconds"⟩, ⟨"linear", true, "", 0, ""⟩⟩
        true).2.xaxis.isDefault_label =
      (⟨⟨"gps", true, "", 0, "seconds"⟩,
        ⟨"linear", true, "", 0, ""⟩⟩ : AxesState).xaxis.isDefault_label :=
  ((C1_draw_restores_marker (fun _ => "1980-01-06 00:00:00.000")
      (fun _ => "0.0")
      ⟨⟨"gps", true, "", 0, "seconds"⟩, ⟨"linear", true, "", 0, ""⟩⟩
      true).1 (by decide) rfl).1

/-- Counterexample to C9 as stated: with the figure being the specialized
composite figure type (`Plot`) and a nonzero fraction `1/2` explicitly
requested, `colorbar` still forces grid management off — the forced
`use_axesgrid = False` does not require a zero fraction. -/
theorem C9_colorbar_counterexample :
    (Axes.colorbar true id ⟨none, some (1 / 2)⟩).use_axesgrid = some false ∧
    ¬ ((⟨none, some (1 / 2)⟩ : CbKwargs).fraction.getD 0 = 0) := by
  constructor
  · rfl
  · norm_num

/-- C9 (amended): `use_axesgrid` absent (grid management at its default)
defaults `fraction` to 0; a zero (or absent) `fraction` defaults
`use_axesgrid` to enabled; and grid management is forced off exactly when
the figure is the specialized composite figure type, regardless of the
requested fraction. -/
theorem C9_colorbar_defaults (figIsPlot : Bool) (pck : CbKwargs → CbKwargs)
    (kw : CbKwargs) :
    (Axes.colorbar figIsPlot pck kw =
      if figIsPlot then
        { pck (colorbarDefaults kw) with use_axesgrid := some false }
      else pck (colorbarDefaults kw)) ∧
    (kw.use_axesgrid = none →
      (colorbarDefaults kw).fraction = some (kw.fraction.getD 0)) ∧
    (kw.fraction.getD 0 = 0 →
      (colorbarDefaults kw).use_axesgrid =
        some (kw.use_axesgrid.getD true)) := by
  refine ⟨rfl, fun hu => ?_, fun hf => ?_⟩
  · rcases kw with ⟨u, f⟩
    subst hu
    by_cases h : (Option.getD f 0 : ℚ) = 0 <;>
      simp [colorbarDefaults, h]
  · rcases kw with ⟨u, f⟩
    rcases u with _ | b
    · simp_all [colorbarDefaults]
    · rcases b with _ | _ <;> simp_all [colorbarDefaults]

/-- Witness for the amended C9 with empty keywords on a composite-figure
call. -/
theorem C9_colorbar_defaults_witness :
    (Axes.colorbar true id ⟨none, none⟩ =
      if true then
        { id (colorbarDefaults ⟨none, none⟩) with use_axesgrid := some false }
      else id (colorbarDefaults ⟨none, none⟩)) ∧
    (colorbarDefaults ⟨none, none⟩).fraction =
      some ((⟨none, none⟩ : CbKwargs).fraction.getD 0) ∧
    (colorbarDefaults ⟨none, none⟩).use_axesgrid =
      some ((⟨none, none⟩ : CbKwargs).use_axesgrid.getD true) :=
  ⟨(C9_colorbar_defaults true id ⟨none, none⟩).1,
   (C9_colorbar_defaults true id ⟨none, none⟩).2.1 rfl,
   (C9_colorbar_defaults true id ⟨none, none⟩).2.2 (by decide)⟩
